import Mathlib

/-!
# Verification of the PyKMN Generation-I binary codec and protocol wrapper

A shallow embedding of `pykmn/engine/gen1.py`, `pykmn/engine/rng.py` and the
protocol parser of this repository, together with proofs of the specified
properties.  Byte buffers are modelled as `List Nat` (each entry one byte);
the cffi buffers of the Python code are mutated in place, which we model by
explicit state passing: an operation takes the buffer before the call and
returns the buffer after all the writes it performed, together with the
error it raised (if any), so that partially-mutated states are observable.

Static data tables (`pykmn/data/gen1.py`) and the byte helpers
(`pykmn/engine/common.py`) are not part of the sources; where needed they
are modelled from the spec, and marked as such.
-/

namespace PyKMN

/-! ## Byte-buffer primitives

`writeBytes buf off vals` models the Python slice assignment
`buf[off:off+len(vals)] = vals` on a cffi byte array; `readBytes` models
`buf[off:off+len]`, and `byteAt` models `buf[i]`. -/

def writeBytes (buf : List Nat) (off : Nat) (vals : List Nat) : List Nat :=
  buf.take off ++ vals ++ buf.drop (off + vals.length)

def readBytes (buf : List Nat) (off len : Nat) : List Nat :=
  (buf.drop off).take len

def byteAt (buf : List Nat) (i : Nat) : Nat :=
  buf.getD i 0

theorem writeBytes_length {buf : List Nat} {off : Nat} {vals : List Nat}
    (h : off + vals.length ≤ buf.length) :
    (writeBytes buf off vals).length = buf.length := by
  simp [writeBytes]
  omega

theorem readBytes_length {buf : List Nat} {off len : Nat}
    (h : off + len ≤ buf.length) :
    (readBytes buf off len).length = len := by
  simp [readBytes]
  omega

theorem readBytes_replicate {n off len : Nat} (h : off + len ≤ n) :
    readBytes (List.replicate n 0) off len = List.replicate len 0 := by
  rw [readBytes, List.drop_replicate, List.take_replicate]
  congr 1
  omega

/-- Writing at an offset equal to the length of a known prefix replaces the
matching segment of the tail. -/
theorem writeBytes_append {pre rest vals : List Nat} {off : Nat}
    (h : pre.length = off) :
    writeBytes (pre ++ rest) off vals = pre ++ vals ++ rest.drop vals.length := by
  subst h
  rw [writeBytes, List.take_left, List.append_assoc, List.drop_append]
  simp

/-- Reading back exactly the written segment. -/
theorem readBytes_writeBytes_eq {buf vals : List Nat} {off : Nat}
    (h : off ≤ buf.length) :
    readBytes (writeBytes buf off vals) off vals.length = vals := by
  rw [writeBytes, readBytes, List.append_assoc, List.drop_left' (by simp; omega)]
  exact List.take_left' rfl

/-- A write does not affect a read from a disjoint region. -/
theorem readBytes_writeBytes_disjoint {buf vals : List Nat} {woff roff rlen : Nat}
    (hw : woff + vals.length ≤ buf.length)
    (hdis : roff + rlen ≤ woff ∨ woff + vals.length ≤ roff) :
    readBytes (writeBytes buf woff vals) roff rlen = readBytes buf roff rlen := by
  rcases hdis with hL | hR
  · rw [writeBytes, readBytes, List.append_assoc,
      List.drop_append_of_le_length (by simp; omega),
      List.take_append_of_le_length (by simp; omega),
      List.drop_take, List.take_take, readBytes]
    congr 1
    omega
  · have hk : roff = (buf.take woff ++ vals).length + (roff - (woff + vals.length)) := by
      simp
      omega
    rw [writeBytes, readBytes, hk, List.drop_append, List.drop_drop, readBytes]
    congr 2
    simp
    omega

/-! ## Layout constants

Modelled from the spec: the static layout tables live in
`pykmn/data/gen1.py`, which is not among the sources; the offsets below are
forced by the offset-assertion chain in `Pokemon.initialize` /
`Side.__init__` and by the engine layout the spec describes (a Pokémon
record is 24 bytes: 10 stats, 8 move slots, 2 hp, 1 status, 1 species,
1 types, 1 level; a Side is 184 bytes: 6 Pokémon, 32-byte active block,
6-byte order array, last-selected and last-used move bytes; a battle is
384 bytes). -/

def LAYOUT_SIZES_Pokemon : Nat := 24
def LAYOUT_SIZES_Side : Nat := 184
def OFFSET_Pokemon_stats : Nat := 0
def OFFSET_Pokemon_moves : Nat := 10
def OFFSET_Pokemon_hp : Nat := 18
def OFFSET_Pokemon_status : Nat := 20
def OFFSET_Pokemon_species : Nat := 21
def OFFSET_Pokemon_types : Nat := 22
def OFFSET_Pokemon_level : Nat := 23
def OFFSET_Side_pokemon : Nat := 0
def OFFSET_Side_order : Nat := 176
def OFFSET_Side_last_selected_move : Nat := 182
def OFFSET_Side_last_used_move : Nat := 183

/-- Modelled from the spec: the engine-declared battle-record size
(`lib.PKMN_GEN1_BATTLE_SIZE`), an external engine constant: two 184-byte
sides, 16-bit turn, 16-bit last damage, two 16-bit cached move indices and
the 8-byte RNG state. -/
def lib_PKMN_GEN1_BATTLE_SIZE : Nat := 384

/-! ## Byte helpers

Modelled from the spec: `pack_u16_as_bytes` / `unpack_u16_from_bytes` /
`pack_two_u4s` / `unpack_two_u4s` live in `pykmn/engine/common.py`, which
is not among the sources.  The spec fixes 16-bit fields as little-endian
and the type byte as two 4-bit nibbles. -/

def pack_u16_as_bytes (v : Nat) : List Nat :=
  [v % 256, v / 256 % 256]

def unpack_u16_from_bytes (byte1 byte2 : Nat) : Nat :=
  byte1 + 256 * byte2

def pack_two_u4s (a b : Nat) : Nat :=
  a % 16 + 16 * (b % 16)

def unpack_two_u4s (x : Nat) : Nat × Nat :=
  (x % 16, x / 16 % 16)

/-! ## `statcalc` (gen1.py lines 115-139)

The source computes
`core = (2 * (base_value + dv)) + math.trunc(math.sqrt(experience) / 4)`
and `(core * math.trunc(level / 100) + factor) % 2**16` with Python float
`math.sqrt` and float true division.  On the domain the record format can
hold (8-bit level, 16-bit experience) the float computation coincides with
the truncating integer arithmetic below (the source's own Zig reference
comment uses integer `std.math.sqrt` and integer division), which is how we
embed it: `Nat.sqrt` is the truncated square root and `/` is truncating
division. -/

def statcalc (base_value : Nat) (is_HP : Bool := false) (level : Nat := 100)
    (dv : Nat := 15) (experience : Nat := 65535) : Nat :=
  let core := 2 * (base_value + dv) + Nat.sqrt experience / 4
  let factor := if is_HP then level + 10 else 5
  (core * (level / 100) + factor) % 2 ^ 16

theorem sqrt_65535 : Nat.sqrt 65535 = 255 := by
  have h1 : Nat.sqrt 65535 < 256 := by
    rw [Nat.sqrt_lt']
    norm_num
  have h2 : 255 ≤ Nat.sqrt 65535 := by
    rw [Nat.le_sqrt']
    norm_num
  omega

/-! ## `Status` (gen1.py lines 21-83) -/

inductive InnerStatusEnum where
  | HEALTHY
  | SLEEP
  | POISON
  | BURN
  | FREEZE
  | PARALYSIS
deriving DecidableEq

def InnerStatusEnum.value : InnerStatusEnum → Nat
  | .HEALTHY => 0
  | .SLEEP => 4
  | .POISON => 8
  | .BURN => 16
  | .FREEZE => 32
  | .PARALYSIS => 64

structure Status where
  value : InnerStatusEnum
  duration : Option Nat
  is_self_inflicted : Option Bool
deriving DecidableEq

def Status.healthy : Status := ⟨.HEALTHY, none, none⟩

def Status.paralyzed : Status := ⟨.PARALYSIS, none, none⟩

def Status.burned : Status := ⟨.BURN, none, none⟩

def Status.poisoned : Status := ⟨.POISON, none, none⟩

def Status.frozen : Status := ⟨.FREEZE, none, none⟩

def Status.sleep (duration : Nat) (is_self_inflicted : Bool) : Status :=
  ⟨.SLEEP, some duration, some is_self_inflicted⟩

def Status.to_int (s : Status) : Nat :=
  match s.duration with
  | some d => if s.is_self_inflicted = some true then 0x80 ||| d else d
  | none => s.value.value

/-! ## `Volatiles` (gen1.py lines 467-591)

`_to_bits` joins eighteen 1-bit boolean flags and eight bounded integer
fields with the `bitstring` library.  `Bits(uint=x, length=n)` raises when
`x` does not fit in `n` bits, which we model by returning `none`; on
success the result is the MSB-first bit pattern of each field in
declaration order. -/

/-- The `n`-bit MSB-first pattern of `x`, as produced by
`Bits(uint=x, length=n)` for an in-range `x`. -/
def natToBits (x n : Nat) : List Bool :=
  (List.range n).map fun i => x.testBit (n - 1 - i)

theorem natToBits_length (x n : Nat) : (natToBits x n).length = n := by
  simp [natToBits]

structure Volatiles where
  Bide : Bool := false
  Thrashing : Bool := false
  MultiHit : Bool := false
  Flinch : Bool := false
  Charging : Bool := false
  Binding : Bool := false
  Invulnerable : Bool := false
  Confusion : Bool := false
  Mist : Bool := false
  FocusEnergy : Bool := false
  Substitute : Bool := false
  Recharging : Bool := false
  Rage : Bool := false
  LeechSeed : Bool := false
  Toxic : Bool := false
  LightScreen : Bool := false
  Reflect : Bool := false
  Transform : Bool := false
  confusion : Nat := 0
  attacks : Nat := 0
  state : Nat := 0
  substitute : Nat := 0
  transform : Nat := 0
  disabled_duration : Nat := 0
  disabled_move : Nat := 0
  toxic : Nat := 0
deriving DecidableEq

/-- The eighteen boolean flags of `Volatiles._to_bits`, one bit each, in
declaration order. -/
def Volatiles.flagBits (v : Volatiles) : List Bool :=
  [v.Bide, v.Thrashing, v.MultiHit, v.Flinch, v.Charging, v.Binding,
   v.Invulnerable, v.Confusion, v.Mist, v.FocusEnergy, v.Substitute,
   v.Recharging, v.Rage, v.LeechSeed, v.Toxic, v.LightScreen,
   v.Reflect, v.Transform]

/-- `Volatiles._to_bits`: joins the flags and the bounded counters; any
counter too wide for its declared field makes the `Bits` constructor raise
(`none` here).  The 16-bit `state` and 8-bit `substitute` fields are
declared native-endian in the source; byte order does not change the bit
count, so we keep the MSB-first pattern for them as well. -/
def Volatiles.toBits (v : Volatiles) : Option (List Bool) :=
  if v.confusion < 2 ^ 3 ∧ v.attacks < 2 ^ 3 ∧ v.state < 2 ^ 16 ∧
      v.substitute < 2 ^ 8 ∧ v.transform < 2 ^ 4 ∧
      v.disabled_duration < 2 ^ 4 ∧ v.disabled_move < 2 ^ 3 ∧
      v.toxic < 2 ^ 5 then
    some (v.flagBits ++ natToBits v.confusion 3 ++ natToBits v.attacks 3 ++
      natToBits v.state 16 ++ natToBits v.substitute 8 ++
      natToBits v.transform 4 ++ natToBits v.disabled_duration 4 ++
      natToBits v.disabled_move 3 ++ natToBits v.toxic 5)
  else
    none

/-! ## `ShowdownRNG` (rng.py) and `Battle.__init__` (gen1.py lines 727-765) -/

/-- Modelled from the spec: the RNG's fixed-size serialized-state form
consumed when assembling a battle record.  `ShowdownRNG` wraps a
`pkmn_psrng` (`struct { uint8_t bytes[8]; }` per the source comment) seeded
by a 64-bit integer; its serialization is those 8 bytes.
`ShowdownRNG._to_bits` itself is not among the sources. -/
def ShowdownRNG.toBytes (seed : Nat) : List Nat :=
  [seed % 256, seed / 2 ^ 8 % 256, seed / 2 ^ 16 % 256, seed / 2 ^ 24 % 256,
   seed / 2 ^ 32 % 256, seed / 2 ^ 40 % 256, seed / 2 ^ 48 % 256,
   seed / 2 ^ 56 % 256]

/-- `_pack_move_indexes` (gen1.py lines 714-724): two 16-bit fields. -/
def pack_move_indexes (p1 p2 : Nat) : List Nat :=
  pack_u16_as_bytes p1 ++ pack_u16_as_bytes p2

inductive BattleInitError where
  | SizeMismatch
deriving DecidableEq

/-- The buffer `Battle.__init__` assembles: side 1's bytes, side 2's bytes,
16-bit turn, 16-bit last damage, the two 16-bit cached move indices, and
the RNG's serialized state, concatenated in that order. -/
def battleData (s1b s2b : List Nat) (start_turn last_damage p1_move_idx
    p2_move_idx rng_seed : Nat) : List Nat :=
  s1b ++ s2b ++ pack_u16_as_bytes start_turn ++
    pack_u16_as_bytes last_damage ++
    pack_move_indexes p1_move_idx p2_move_idx ++ ShowdownRNG.toBytes rng_seed

/-- `Battle.__init__`: builds `battleData` and asserts that its bit length
equals the engine-declared battle size (`SizeMismatch` assertion
otherwise). -/
def battleInit (s1b s2b : List Nat) (start_turn last_damage p1_move_idx
    p2_move_idx rng_seed : Nat) : Except BattleInitError (List Nat) :=
  let data := battleData s1b s2b start_turn last_damage p1_move_idx
    p2_move_idx rng_seed
  if data.length * 8 = lib_PKMN_GEN1_BATTLE_SIZE * 8 then
    .ok data
  else
    .error .SizeMismatch

/-! ## `Battle.possible_choices` (gen1.py lines 801-834)

The external engine call `pkmn_gen1_battle_choices` is a collaborator: it
fills `raw_choices` and returns `num_choices`.  The wrapper logic is
embedded as a function of the engine's outputs. -/

inductive ChoicesError where
  | Softlock
deriving DecidableEq

/-- `possible_choices` given the engine's reported choice count and output
array: raises `Softlock` on a zero count, otherwise collects
`raw_choices[i]` for `i < num_choices` in order. -/
def possible_choices (num_choices : Nat) (raw_choices : List Nat) :
    Except ChoicesError (List Nat) :=
  if num_choices = 0 then
    .error .Softlock
  else
    .ok ((List.range num_choices).map fun i => raw_choices.getD i 0)

/-! ## Static data tables

Modelled from the spec: the tables `MOVE_IDS`, `MOVES` (base PP),
`MOVE_ID_LOOKUP`, `SPECIES`, `SPECIES_IDS` and `TYPES` live in
`pykmn/data/gen1.py`, which is not among the sources.  The spec describes
them as read-only lookup collaborators (species name to base stats and type
pair, bidirectional move name/id with base PP, type name/id), so the codec
is embedded relative to an arbitrary table bundle, dependency-injected as
the spec's design notes mandate; theorems state the coherence they need as
hypotheses. -/

structure Gen1StatData where
  hp : Nat
  atk : Nat
  defense : Nat
  spe : Nat
  spc : Nat
deriving DecidableEq

structure Gen1Data where
  MOVE_IDS : List (String × Nat)
  MOVES : List (String × Nat)
  MOVE_ID_LOOKUP : List (Nat × String)
  SPECIES : List (String × Gen1StatData × List String)
  SPECIES_IDS : List (String × Nat)
  SPECIES_ID_LOOKUP : List (Nat × String)
  TYPES : List String

inductive InitError where
  | UnknownSpecies
  | UnknownMove
deriving DecidableEq

/-- The five derived stats of `Pokemon.initialize` when no explicit stats
are supplied: `statcalc` over the species base stats with the level, DVs
and stat experience. -/
def derivedStats (base : Gen1StatData) (level : Nat) (dvs exp : Gen1StatData) :
    Gen1StatData where
  hp := statcalc base.hp true level dvs.hp exp.hp
  atk := statcalc base.atk false level dvs.atk exp.atk
  defense := statcalc base.defense false level dvs.defense exp.defense
  spe := statcalc base.spe false level dvs.spe exp.spe
  spc := statcalc base.spc false level dvs.spc exp.spc

/-- The ten stat bytes packed first by `Pokemon.initialize`: each of
hp, atk, def, spe, spc as a 16-bit field in that order. -/
def statsBytes (s : Gen1StatData) : List Nat :=
  pack_u16_as_bytes s.hp ++ pack_u16_as_bytes s.atk ++
    pack_u16_as_bytes s.defense ++ pack_u16_as_bytes s.spe ++
    pack_u16_as_bytes s.spc

/-- The PP of one occupied move slot: the per-slot override when
`move_pp` was given; otherwise 0 for the `None` move (id 0) and
`floor(base PP * 8 / 5)` from the `MOVES` table otherwise. -/
def slotPP (d : Gen1Data) (names : List String) (move_pp : Option (List Nat))
    (idx move_id : Nat) : Nat :=
  match move_pp with
  | none =>
    if move_id = 0 then 0
    else (List.lookup (names.getD idx "") d.MOVES).getD 0 * 8 / 5
  | some pps => pps.getD idx 0

/-- The move-slot loop of `Pokemon.initialize` over the slot indices
`slots` (the source iterates `range(4)`).  A slot beyond the moveset gets
id 0 / PP 0; otherwise the name is looked up in `MOVE_IDS` (a missing name
raises `UnknownMove` there, after the earlier slots' bytes have already
been produced).  Returns the bytes written into the moves region before
returning, and the error if one was raised. -/
def packMoveSlots (d : Gen1Data) (names : List String)
    (move_pp : Option (List Nat)) : List Nat → List Nat × Option InitError
  | [] => ([], none)
  | idx :: rest =>
    if idx < names.length then
      match List.lookup (names.getD idx "") d.MOVE_IDS with
      | none => ([], some .UnknownMove)
      | some move_id =>
        let r := packMoveSlots d names move_pp rest
        (move_id :: slotPP d names move_pp idx move_id :: r.1, r.2)
    else
      let r := packMoveSlots d names move_pp rest
      (0 :: 0 :: r.1, r.2)

/-- The optional third element of a `PokemonInitializer` tuple. -/
structure ExtraPokemonData where
  hp : Option Nat := none
  status : Option Nat := none
  level : Option Nat := none
  stats : Option Gen1StatData := none
  types : Option (String × String) := none
  move_pp : Option (List Nat) := none
  dvs : Option Gen1StatData := none
  exp : Option Gen1StatData := none
deriving DecidableEq

structure PokemonInitializer where
  species : String
  moveNames : List String
  extra : ExtraPokemonData := {}

def defaultDVs : Gen1StatData := ⟨15, 15, 15, 15, 15⟩
def defaultExp : Gen1StatData := ⟨65535, 65535, 65535, 65535, 65535⟩

/-- Species/type resolution at the head of `Pokemon.initialize`: the
sentinel species `"None"` defaults to zero stats and a `Normal/Normal`
type pair; a known species derives stats via `statcalc` and duplicates a
single type; anything else raises `UnknownSpecies` before any write. -/
def resolveStatsTypes (d : Gen1Data) (data : PokemonInitializer)
    (level : Nat) (dvs exp : Gen1StatData) :
    Except InitError (Gen1StatData × String × String) :=
  if data.species = "None" then
    .ok (data.extra.stats.getD ⟨0, 0, 0, 0, 0⟩,
      data.extra.types.getD ("Normal", "Normal"))
  else
    match List.lookup data.species d.SPECIES with
    | some (baseStats, speciesTypes) =>
      let stats := data.extra.stats.getD (derivedStats baseStats level dvs exp)
      let first_type := speciesTypes.getD 0 ""
      let second_type :=
        if speciesTypes.length > 1 then speciesTypes.getD 1 "" else first_type
      .ok (stats, data.extra.types.getD (first_type, second_type))
    | none => .error .UnknownSpecies

/-- `Pokemon.initialize` (gen1.py lines 172-306): overwrites the record's
buffer field by field, in source order (stats, move slots, hp, status,
species id, packed types, level).  Returns the buffer after the writes
that were performed and the error raised, if any: an `UnknownSpecies`
leaves the buffer untouched, while an `UnknownMove` is raised inside the
move loop, after the stats bytes and the earlier slots were already
written. -/
def pokemonInitialize (d : Gen1Data) (buf : List Nat)
    (data : PokemonInitializer) : List Nat × Option InitError :=
  let status := data.extra.status.getD 0
  let level := data.extra.level.getD 100
  let dvs := data.extra.dvs.getD defaultDVs
  let exp := data.extra.exp.getD defaultExp
  match resolveStatsTypes d data level dvs exp with
  | .error e => (buf, some e)
  | .ok (stats, type1, type2) =>
    let hp := data.extra.hp.getD stats.hp
    let buf1 := writeBytes buf OFFSET_Pokemon_stats (statsBytes stats)
    let packed := packMoveSlots d data.moveNames data.extra.move_pp [0, 1, 2, 3]
    let buf2 := writeBytes buf1 OFFSET_Pokemon_moves packed.1
    match packed.2 with
    | some e => (buf2, some e)
    | none =>
      let buf3 := writeBytes buf2 OFFSET_Pokemon_hp (pack_u16_as_bytes hp)
      let buf4 := writeBytes buf3 OFFSET_Pokemon_status [status]
      let buf5 := writeBytes buf4 OFFSET_Pokemon_species
        [(List.lookup data.species d.SPECIES_IDS).getD 0]
      let buf6 := writeBytes buf5 OFFSET_Pokemon_types
        [pack_two_u4s (d.TYPES.indexOf type1) (d.TYPES.indexOf type2)]
      let buf7 := writeBytes buf6 OFFSET_Pokemon_level [level]
      (buf7, none)

/-! ### Pure readers (gen1.py lines 308-409) -/

namespace Pokemon

def stats (buf : List Nat) : Gen1StatData where
  hp := unpack_u16_from_bytes (byteAt buf 0) (byteAt buf 1)
  atk := unpack_u16_from_bytes (byteAt buf 2) (byteAt buf 3)
  defense := unpack_u16_from_bytes (byteAt buf 4) (byteAt buf 5)
  spe := unpack_u16_from_bytes (byteAt buf 6) (byteAt buf 7)
  spc := unpack_u16_from_bytes (byteAt buf 8) (byteAt buf 9)

/-- `Pokemon.moves`: the non-zero move ids of the four slots, in order,
decoded through `MOVE_ID_LOOKUP`. -/
def moves (d : Gen1Data) (buf : List Nat) : List String :=
  ([0, 2, 4, 6].filter
      (fun n => byteAt buf (OFFSET_Pokemon_moves + n) ≠ 0)).map
    fun n => (List.lookup (byteAt buf (OFFSET_Pokemon_moves + n))
      d.MOVE_ID_LOOKUP).getD ""

/-- `Pokemon.pp_left`: the PP byte of each slot whose move id is
non-zero. -/
def pp_left (buf : List Nat) : List Nat :=
  ([1, 3, 5, 7].filter
      (fun n => byteAt buf (OFFSET_Pokemon_moves + n - 1) ≠ 0)).map
    fun n => byteAt buf (OFFSET_Pokemon_moves + n)

def hp (buf : List Nat) : Nat :=
  unpack_u16_from_bytes (byteAt buf OFFSET_Pokemon_hp)
    (byteAt buf (OFFSET_Pokemon_hp + 1))

def status (buf : List Nat) : Nat :=
  byteAt buf OFFSET_Pokemon_status

def species (d : Gen1Data) (buf : List Nat) : String :=
  (List.lookup (byteAt buf OFFSET_Pokemon_species) d.SPECIES_ID_LOOKUP).getD ""

def types (d : Gen1Data) (buf : List Nat) : String × String :=
  let t := unpack_two_u4s (byteAt buf OFFSET_Pokemon_types)
  (d.TYPES.getD t.1 "", d.TYPES.getD t.2 "")

def level (buf : List Nat) : Nat :=
  byteAt buf OFFSET_Pokemon_level

end Pokemon

/-! ## `Side.initialize` (gen1.py lines 636-685)

`Side.__init__` wraps six `Pokemon` objects over slices of the side's own
buffer (cffi slices of a cdata array share the underlying memory), so
`self.team[i].initialize(...)` writes in place into the parent buffer at
the slot's offset.  The team loop is embedded as explicit state passing
over the flat side buffer: slot `i` occupies bytes
`[24 * i, 24 * i + 24)`. -/

def sideInitTeam (d : Gen1Data) :
    List PokemonInitializer → Nat → List Nat → List Nat × Option InitError
  | [], _, buf => (buf, none)
  | pd :: rest, i, buf =>
    let r := pokemonInitialize d
      (readBytes buf (LAYOUT_SIZES_Pokemon * i) LAYOUT_SIZES_Pokemon) pd
    let newBuf := writeBytes buf (LAYOUT_SIZES_Pokemon * i) r.1
    match r.2 with
    | some e => (newBuf, some e)
    | none => sideInitTeam d rest (i + 1) newBuf

/-- `Side.initialize` with a plain team list (the dict form additionally
writes the last-selected/last-used move bytes first; the team loop and the
order array are identical): initializes each team slot in order in place,
then writes the order array of 1-based slot indices `1..N` at the order
offset (the source loop writes `order[i] = i + 1` byte by byte, which
equals one contiguous write of the list `[1, ..., N]`). -/
def sideInitialize (d : Gen1Data) (buf : List Nat)
    (team : List PokemonInitializer) : List Nat × Option InitError :=
  let r := sideInitTeam d team 0 buf
  match r.2 with
  | some e => (r.1, some e)
  | none =>
    (writeBytes r.1 OFFSET_Side_order ((List.range team.length).map (· + 1)),
      none)

/-! ## Protocol parser

Modelled from the spec: `pykmn/engine/protocol.py` and the message table
`pykmn/data/protocol.py` are not among the sources (only
`tests/test_protocol.py` is).  The spec fixes the shape: a single cursor
reads one message-type byte, dispatches to a per-message decoder that
consumes that message's bytes (the `Move` decoder reads source, move id,
target and a reason byte, with one extra move byte when the reason selects
a `[from]` annotation; `Turn` reads a 16-bit little-endian turn; `Tie`
reads nothing), renders one line per event, and raises `TruncatedTrace`
when fewer bytes remain than the message type requires.  Participant bytes
encode (player, team-slot) pairs rendered
`p{1|2}a: Pokémon #{1-based slot}`. -/

def MESSAGES : List String :=
  ["None", "LastStill", "LastMiss", "Move", "Switch", "Cant", "Faint",
   "Turn", "Win", "Tie", "Damage", "Heal", "Status", "CureStatus", "Boost",
   "ClearAllBoost", "Fail", "Miss", "HitCount", "Prepare", "MustRecharge",
   "Activate", "FieldActivate", "Start", "End", "OHKO", "Crit",
   "SuperEffective", "Resisted", "Immune", "Transform"]

def MoveMessageId : Nat := MESSAGES.indexOf "Move"
def TurnMessageId : Nat := MESSAGES.indexOf "Turn"
def TieMessageId : Nat := MESSAGES.indexOf "Tie"

/-- A participant identifier byte: the high bit of the low nibble selects
the player, the low three bits the 1-based team slot. -/
def slotIdent (b : Nat) : String :=
  if b ≥ 8 then "p2a: Pokémon #" ++ toString (b % 8)
  else "p1a: Pokémon #" ++ toString b

def moveNameOf (d : Gen1Data) (id : Nat) : String :=
  (List.lookup id d.MOVE_ID_LOOKUP).getD ""

inductive ProtocolError where
  | TruncatedTrace
  | UnsupportedMessage
deriving DecidableEq

/-- The trace parser, for the message kinds the claims cover (`Move`,
`Turn`, `Tie`); every other message-type byte is out of the modelled
fragment.  Reading past the end of the trace raises `TruncatedTrace`. -/
def parse_protocol (d : Gen1Data) : List Nat → Except ProtocolError (List String)
  | [] => .ok []
  | msgType :: rest =>
    if msgType = MoveMessageId then
      match rest with
      | source :: move :: target :: reason :: rest2 =>
        let base := "|move|" ++ slotIdent source ++ "|" ++ moveNameOf d move ++
          "|" ++ slotIdent target
        if reason = 0 then
          (parse_protocol d rest2).map (base :: ·)
        else
          match rest2 with
          | fromMove :: rest3 =>
            (parse_protocol d rest3).map
              ((base ++ "|[from] " ++ moveNameOf d fromMove) :: ·)
          | [] => .error .TruncatedTrace
      | _ => .error .TruncatedTrace
    else if msgType = TurnMessageId then
      match rest with
      | b1 :: b2 :: rest2 =>
        (parse_protocol d rest2).map
          (("|turn|" ++ toString (unpack_u16_from_bytes b1 b2)) :: ·)
      | _ => .error .TruncatedTrace
    else if msgType = TieMessageId then
      (parse_protocol d rest).map ("|tie" :: ·)
    else
      .error .UnsupportedMessage

/-- A sample of the real Generation-I move table, for concrete
evaluations: `Psychic` is move id 94 and `Metronome` id 118. -/
def sampleData : Gen1Data where
  MOVE_IDS := [("Psychic", 94), ("Metronome", 118)]
  MOVES := [("Psychic", 10), ("Metronome", 10)]
  MOVE_ID_LOOKUP := [(94, "Psychic"), (118, "Metronome")]
  SPECIES := []
  SPECIES_IDS := [("None", 0)]
  SPECIES_ID_LOOKUP := [(0, "None")]
  TYPES := ["Normal", "Fighting", "Flying", "Poison", "Ground", "Rock",
    "Bug", "Ghost", "Fire", "Water", "Grass", "Electric", "Psychic", "Ice",
    "Dragon"]

/-! ## Structural lemmas about `pokemonInitialize` -/

theorem packMoveSlots_length_le (d : Gen1Data) (names : List String)
    (mpp : Option (List Nat)) (slots : List Nat) :
    (packMoveSlots d names mpp slots).1.length ≤ 2 * slots.length := by
  induction slots with
  | nil => simp [packMoveSlots]
  | cons idx rest ih =>
    rw [packMoveSlots]
    by_cases hidx : idx < names.length
    · rw [if_pos hidx]
      rcases hl : List.lookup (names.getD idx "") d.MOVE_IDS with _ | mid
      · simp only [hl]
        simp
      · simp only [hl, List.length_cons]
        omega
    · rw [if_neg hidx]
      simp only [List.length_cons]
      omega

theorem packMoveSlots_length_of_ok (d : Gen1Data) (names : List String)
    (mpp : Option (List Nat)) (slots : List Nat)
    (h : (packMoveSlots d names mpp slots).2 = none) :
    (packMoveSlots d names mpp slots).1.length = 2 * slots.length := by
  induction slots with
  | nil => simp [packMoveSlots]
  | cons idx rest ih =>
    rw [packMoveSlots] at h ⊢
    by_cases hidx : idx < names.length
    · rw [if_pos hidx] at h ⊢
      rcases hl : List.lookup (names.getD idx "") d.MOVE_IDS with _ | mid
      · simp only [hl] at h
        cases h
      · simp only [hl] at h ⊢
        simp only [List.length_cons]
        have := ih h
        omega
    · rw [if_neg hidx] at h ⊢
      simp only [List.length_cons]
      have := ih h
      omega

theorem statsBytes_length (s : Gen1StatData) : (statsBytes s).length = 10 :=
  rfl

/-- When species resolution and every move lookup succeed, the initialized
buffer is the explicit 24-byte record: stats bytes, move-slot bytes, hp,
status, species id, packed types, level. -/
theorem pokemonInitialize_ok_shape (d : Gen1Data) (buf : List Nat)
    (data : PokemonInitializer) (st : Gen1StatData) (t1 t2 : String)
    (hbuf : buf.length = 24)
    (hres : resolveStatsTypes d data (data.extra.level.getD 100)
      (data.extra.dvs.getD defaultDVs) (data.extra.exp.getD defaultExp) =
      .ok (st, t1, t2))
    (hok : (packMoveSlots d data.moveNames data.extra.move_pp [0, 1, 2, 3]).2 =
      none) :
    pokemonInitialize d buf data =
      (statsBytes st ++
        ((packMoveSlots d data.moveNames data.extra.move_pp [0, 1, 2, 3]).1 ++
          (pack_u16_as_bytes (data.extra.hp.getD st.hp) ++
            ([data.extra.status.getD 0] ++
              ([(List.lookup data.species d.SPECIES_IDS).getD 0] ++
                ([pack_two_u4s (d.TYPES.indexOf t1) (d.TYPES.indexOf t2)] ++
                  [data.extra.level.getD 100]))))), none) := by
  have hml : (packMoveSlots d data.moveNames data.extra.move_pp
      [0, 1, 2, 3]).1.length = 8 :=
    packMoveSlots_length_of_ok d data.moveNames data.extra.move_pp _ hok
  rw [pokemonInitialize, hres]
  simp only [hok]
  rw [OFFSET_Pokemon_stats, OFFSET_Pokemon_moves, OFFSET_Pokemon_hp,
    OFFSET_Pokemon_status, OFFSET_Pokemon_species, OFFSET_Pokemon_types,
    OFFSET_Pokemon_level]
  have h0 : writeBytes buf 0 (statsBytes st) = statsBytes st ++ buf.drop 10 := by
    rw [writeBytes, statsBytes_length]
    simp
  rw [h0,
    writeBytes_append (statsBytes_length st),
    hml]
  have h10 : (buf.drop 10).drop 8 = buf.drop 18 := by
    rw [List.drop_drop]
  rw [h10]
  rw [writeBytes_append (by simp [statsBytes_length, hml])]
  have h18 : (buf.drop 18).drop (pack_u16_as_bytes
      (data.extra.hp.getD st.hp)).length = buf.drop 20 := by
    rw [List.drop_drop]
    rfl
  rw [h18]
  rw [writeBytes_append (by simp [statsBytes_length, hml, pack_u16_as_bytes])]
  have h20 : (buf.drop 20).drop [data.extra.status.getD 0].length =
      buf.drop 21 := by
    rw [List.drop_drop]
    rfl
  rw [h20]
  rw [writeBytes_append (by simp [statsBytes_length, hml, pack_u16_as_bytes])]
  have h21 : (buf.drop 21).drop
      [(List.lookup data.species d.SPECIES_IDS).getD 0].length =
      buf.drop 22 := by
    rw [List.drop_drop]
    rfl
  rw [h21]
  rw [writeBytes_append (by simp [statsBytes_length, hml, pack_u16_as_bytes])]
  have h22 : (buf.drop 22).drop
      [pack_two_u4s (d.TYPES.indexOf t1) (d.TYPES.indexOf t2)].length =
      buf.drop 23 := by
    rw [List.drop_drop]
    rfl
  rw [h22]
  rw [writeBytes_append (by simp [statsBytes_length, hml, pack_u16_as_bytes])]
  have h23 : (buf.drop 23).drop [data.extra.level.getD 100].length =
      buf.drop 24 := by
    rw [List.drop_drop]
    rfl
  rw [h23]
  have h24 : buf.drop 24 = [] := by
    rw [List.drop_eq_nil_iff, hbuf]
  rw [h24]
  simp [List.append_assoc]

theorem byteAt_append_left {A R : List Nat} {i : Nat} (h : i < A.length) :
    byteAt (A ++ R) i = byteAt A i := by
  unfold byteAt
  rw [List.getD_append _ _ _ _ h]

theorem byteAt_append_right {A R : List Nat} {i : Nat} (h : A.length ≤ i) :
    byteAt (A ++ R) i = byteAt R (i - A.length) := by
  unfold byteAt
  rw [List.getD_append_right _ _ _ _ h]

theorem getD_indexOf {l : List String} {t : String} (h : t ∈ l) :
    l.getD (l.indexOf t) "" = t := by
  have hlt : l.indexOf t < l.length := List.indexOf_lt_length.mpr h
  rw [List.getD_eq_getElem l "" hlt]
  exact List.getElem_indexOf hlt

/-- The `ExtraPokemonData` of an initializer that explicitly supplies hp,
status, level, stats, types and per-slot move PP. -/
def overrideExtra (hp0 st0 lv : Nat) (st : Gen1StatData) (t1 t2 : String)
    (pps : List Nat) : ExtraPokemonData where
  hp := some hp0
  status := some st0
  level := some lv
  stats := some st
  types := some (t1, t2)
  move_pp := some pps

/-- Species resolution succeeds exactly for the sentinel `"None"` or a
species present in the table. -/
theorem resolveStatsTypes_ok_of_valid (d : Gen1Data)
    (data : PokemonInitializer) (lvl : Nat) (dvs exps : Gen1StatData)
    (hspec : data.species = "None" ∨
      (List.lookup data.species d.SPECIES).isSome = true) :
    ∃ st t1 t2, resolveStatsTypes d data lvl dvs exps = .ok (st, t1, t2) := by
  by_cases hsp : data.species = "None"
  · refine ⟨data.extra.stats.getD ⟨0, 0, 0, 0, 0⟩,
      (data.extra.types.getD ("Normal", "Normal")).1,
      (data.extra.types.getD ("Normal", "Normal")).2, ?_⟩
    simp [resolveStatsTypes, hsp]
  · rcases hspec with h | h
    · exact absurd h hsp
    · obtain ⟨pr, hpr⟩ := Option.isSome_iff_exists.mp h
      obtain ⟨bs, ts⟩ := pr
      refine ⟨data.extra.stats.getD (derivedStats bs lvl dvs exps), ?_, ?_, ?_⟩
      · exact (data.extra.types.getD (ts.getD 0 "",
          if ts.length > 1 then ts.getD 1 "" else ts.getD 0 "")).1
      · exact (data.extra.types.getD (ts.getD 0 "",
          if ts.length > 1 then ts.getD 1 "" else ts.getD 0 "")).2
      · simp [resolveStatsTypes, hsp, hpr]

theorem pack_u16_length (v : Nat) : (pack_u16_as_bytes v).length = 2 :=
  rfl

theorem writeBytes_length24 {buf : List Nat} {off : Nat} {vals : List Nat}
    (h : buf.length = 24) (h2 : off + vals.length ≤ 24) :
    (writeBytes buf off vals).length = 24 := by
  rw [writeBytes_length (by omega)]
  exact h

/-- `Pokemon.initialize` preserves the record size, also on the error
paths. -/
theorem pokemonInitialize_length (d : Gen1Data) (buf : List Nat)
    (data : PokemonInitializer) (hbuf : buf.length = 24) :
    (pokemonInitialize d buf data).1.length = 24 := by
  rw [pokemonInitialize]
  rcases hr : resolveStatsTypes d data (data.extra.level.getD 100)
      (data.extra.dvs.getD defaultDVs) (data.extra.exp.getD defaultExp) with
    e | stt
  · exact hbuf
  · obtain ⟨st, t1, t2⟩ := stt
    have hm := packMoveSlots_length_le d data.moveNames data.extra.move_pp
      [0, 1, 2, 3]
    simp only [List.length_cons, List.length_nil] at hm
    have l1 : (writeBytes buf OFFSET_Pokemon_stats (statsBytes st)).length =
        24 :=
      writeBytes_length24 hbuf
        (by rw [statsBytes_length, OFFSET_Pokemon_stats]; omega)
    have l2 : (writeBytes
        (writeBytes buf OFFSET_Pokemon_stats (statsBytes st))
        OFFSET_Pokemon_moves
        (packMoveSlots d data.moveNames data.extra.move_pp
          [0, 1, 2, 3]).1).length = 24 :=
      writeBytes_length24 l1 (by rw [OFFSET_Pokemon_moves]; omega)
    rcases he : (packMoveSlots d data.moveNames data.extra.move_pp
        [0, 1, 2, 3]).2 with _ | e
    · simp only [he]
      refine writeBytes_length24 (writeBytes_length24 (writeBytes_length24
        (writeBytes_length24 (writeBytes_length24 l2 ?_) ?_) ?_) ?_) ?_
      · rw [OFFSET_Pokemon_hp, pack_u16_length]
        omega
      · rw [OFFSET_Pokemon_status]
        simp
      · rw [OFFSET_Pokemon_species]
        simp
      · rw [OFFSET_Pokemon_types]
        simp
      · rw [OFFSET_Pokemon_level]
        simp
    · simp only [he]
      exact l2

/-- The fixed-offset readers on an explicitly laid-out initialized
record. -/
theorem readers_of_record (d : Gen1Data) (st : Gen1StatData)
    (hp0 st0 lv sid m0 m1 m2 m3 m4 m5 m6 m7 : Nat) (t1 t2 : String)
    (hsthp : st.hp < 65536) (hstatk : st.atk < 65536)
    (hstdef : st.defense < 65536) (hstspe : st.spe < 65536)
    (hstspc : st.spc < 65536) (hhp : hp0 < 65536)
    (ht1 : t1 ∈ d.TYPES) (ht2 : t2 ∈ d.TYPES)
    (hi1 : d.TYPES.indexOf t1 < 16) (hi2 : d.TYPES.indexOf t2 < 16) :
    Pokemon.stats (statsBytes st ++ ([m0, m1, m2, m3, m4, m5, m6, m7] ++
      (pack_u16_as_bytes hp0 ++ ([st0] ++ ([sid] ++
        ([pack_two_u4s (d.TYPES.indexOf t1) (d.TYPES.indexOf t2)] ++
          [lv])))))) = st ∧
    Pokemon.hp (statsBytes st ++ ([m0, m1, m2, m3, m4, m5, m6, m7] ++
      (pack_u16_as_bytes hp0 ++ ([st0] ++ ([sid] ++
        ([pack_two_u4s (d.TYPES.indexOf t1) (d.TYPES.indexOf t2)] ++
          [lv])))))) = hp0 ∧
    Pokemon.status (statsBytes st ++ ([m0, m1, m2, m3, m4, m5, m6, m7] ++
      (pack_u16_as_bytes hp0 ++ ([st0] ++ ([sid] ++
        ([pack_two_u4s (d.TYPES.indexOf t1) (d.TYPES.indexOf t2)] ++
          [lv])))))) = st0 ∧
    Pokemon.types d (statsBytes st ++ ([m0, m1, m2, m3, m4, m5, m6, m7] ++
      (pack_u16_as_bytes hp0 ++ ([st0] ++ ([sid] ++
        ([pack_two_u4s (d.TYPES.indexOf t1) (d.TYPES.indexOf t2)] ++
          [lv])))))) = (t1, t2) ∧
    Pokemon.level (statsBytes st ++ ([m0, m1, m2, m3, m4, m5, m6, m7] ++
      (pack_u16_as_bytes hp0 ++ ([st0] ++ ([sid] ++
        ([pack_two_u4s (d.TYPES.indexOf t1) (d.TYPES.indexOf t2)] ++
          [lv])))))) = lv := by
  obtain ⟨shp, satk, sdef, sspe, sspc⟩ := st
  simp only [] at hsthp hstatk hstdef hstspe hstspc
  refine ⟨?_, ?_, ?_, ?_, ?_⟩
  · simp only [Pokemon.stats, statsBytes, pack_u16_as_bytes, List.cons_append,
      List.nil_append, byteAt, List.getD_cons_zero, List.getD_cons_succ,
      unpack_u16_from_bytes, Gen1StatData.mk.injEq]
    refine ⟨?_, ?_, ?_, ?_, ?_⟩ <;> omega
  · simp only [Pokemon.hp, OFFSET_Pokemon_hp, statsBytes, pack_u16_as_bytes,
      List.cons_append, List.nil_append, byteAt, List.getD_cons_zero,
      List.getD_cons_succ, unpack_u16_from_bytes]
    omega
  · simp [Pokemon.status, OFFSET_Pokemon_status, statsBytes,
      pack_u16_as_bytes, byteAt]
  · simp only [Pokemon.types, OFFSET_Pokemon_types, statsBytes,
      pack_u16_as_bytes, List.cons_append, List.nil_append, byteAt,
      List.getD_cons_zero, List.getD_cons_succ, unpack_two_u4s, pack_two_u4s]
    have e1 : (d.TYPES.indexOf t1 % 16 + 16 * (d.TYPES.indexOf t2 % 16)) %
        16 = d.TYPES.indexOf t1 := by omega
    have e2 : (d.TYPES.indexOf t1 % 16 + 16 * (d.TYPES.indexOf t2 % 16)) /
        16 % 16 = d.TYPES.indexOf t2 := by omega
    rw [e1, e2, getD_indexOf ht1, getD_indexOf ht2]
  · simp [Pokemon.level, OFFSET_Pokemon_level, statsBytes, pack_u16_as_bytes,
      byteAt]

/-! ## Claims -/

/-- C4: `statcalc(base, is_HP, level, dv, experience)` equals
`((2*(base+dv) + trunc(sqrt(experience)/4)) * trunc(level/100) + factor)
mod 65536` with `factor = level+10` when `is_HP` and `5` otherwise, with
truncating arithmetic at each step; in particular
`statcalc(100, false, 100, 15, 65535) = 298`. -/
theorem statcalc_spec (base_value : Nat) (is_HP : Bool)
    (level dv experience : Nat) :
    statcalc base_value is_HP level dv experience =
      ((2 * (base_value + dv) + Nat.sqrt experience / 4) * (level / 100) +
        (if is_HP then level + 10 else 5)) % 65536 ∧
    statcalc 100 false 100 15 65535 = 298 := by
  constructor
  · rfl
  · rw [statcalc, sqrt_65535]
    decide

/-- C10: `Status.sleep(0, false).to_int() = 0`, the same byte encoding as
`Status.healthy().to_int()`; in general a non-self-inflicted sleep of
duration `d` encodes as `d`, and a self-inflicted one as `0x80 | d`, so a
zero-duration non-self-inflicted sleep is indistinguishable from the
healthy status at the byte level. -/
theorem status_sleep_zero_aliases_healthy (d : Nat) :
    Status.to_int (Status.sleep 0 false) = 0 ∧
    Status.to_int Status.healthy = 0 ∧
    Status.to_int (Status.sleep 0 false) = Status.to_int Status.healthy ∧
    Status.to_int (Status.sleep d false) = d ∧
    Status.to_int (Status.sleep d true) = 0x80 ||| d := by
  refine ⟨rfl, rfl, rfl, rfl, rfl⟩

/-- C8: whenever `Volatiles._to_bits` succeeds, the packed bit string is
exactly 64 bits wide, for every combination of flag and counter values. -/
theorem volatiles_toBits_length (v : Volatiles) (bs : List Bool)
    (h : v.toBits = some bs) : bs.length = 64 := by
  unfold Volatiles.toBits at h
  split at h
  · cases h
    simp [Volatiles.flagBits, natToBits_length]
  · cases h

/-- Witness for C8 at the all-defaults `Volatiles`. -/
theorem volatiles_toBits_length_witness :
    Volatiles.toBits {} = some (List.replicate 64 false) ∧
    (List.replicate 64 false).length = 64 :=
  ⟨by decide, volatiles_toBits_length {} (List.replicate 64 false) (by decide)⟩

/-- C6: `possible_choices` raises `Softlock` exactly when the engine
reports zero legal choices, never returns an empty list, and for a
positive count returns exactly the engine's `n` choices in the engine's
order. -/
theorem possible_choices_spec (num_choices : Nat) (raw_choices : List Nat) :
    (possible_choices num_choices raw_choices = .error .Softlock ↔
      num_choices = 0) ∧
    (∀ l, possible_choices num_choices raw_choices = .ok l →
      l ≠ [] ∧ l.length = num_choices) ∧
    (0 < num_choices → num_choices ≤ raw_choices.length →
      possible_choices num_choices raw_choices =
        .ok (raw_choices.take num_choices)) := by
  refine ⟨?_, ?_, ?_⟩
  · unfold possible_choices
    split
    · simp_all
    · simp_all
  · intro l hl
    unfold possible_choices at hl
    split at hl
    · cases hl
    · rename_i hn
      cases hl
      constructor
      · simp [List.range_eq_nil]
        omega
      · simp
  · intro hpos hle
    unfold possible_choices
    rw [if_neg (by omega)]
    congr 1
    apply List.ext_getElem
    · simp
      omega
    · intro i h1 h2
      simp only [List.getElem_map, List.getElem_range, List.getElem_take]
      rw [List.getD_eq_getElem?_getD, List.getElem?_eq_getElem (by simp at h1; omega)]
      rfl

/-- Witness for C6: a two-choice engine report. -/
theorem possible_choices_spec_witness :
    possible_choices 2 [5, 6, 7] = .ok [5, 6] :=
  (possible_choices_spec 2 [5, 6, 7]).2.2 (by decide) (by decide)

/-- C1: `Battle.__init__` concatenates side 1's buffer, side 2's buffer,
the 16-bit turn, the 16-bit last damage, the two 16-bit cached move
indices and the RNG's serialized state into one buffer; construction
succeeds (returning exactly that concatenation) precisely when the
concatenation's bit length equals the engine-declared
`lib.PKMN_GEN1_BATTLE_SIZE * 8`, and fails with the `SizeMismatch`
assertion otherwise; for two initialized (184-byte) sides it succeeds. -/
theorem battle_init_spec (s1b s2b : List Nat)
    (start_turn last_damage p1_move_idx p2_move_idx rng_seed : Nat) :
    (battleInit s1b s2b start_turn last_damage p1_move_idx p2_move_idx
        rng_seed =
        .ok (battleData s1b s2b start_turn last_damage p1_move_idx
          p2_move_idx rng_seed) ↔
      (battleData s1b s2b start_turn last_damage p1_move_idx p2_move_idx
        rng_seed).length * 8 = lib_PKMN_GEN1_BATTLE_SIZE * 8) ∧
    (battleInit s1b s2b start_turn last_damage p1_move_idx p2_move_idx
        rng_seed = .error .SizeMismatch ↔
      (battleData s1b s2b start_turn last_damage p1_move_idx p2_move_idx
        rng_seed).length * 8 ≠ lib_PKMN_GEN1_BATTLE_SIZE * 8) ∧
    (s1b.length = LAYOUT_SIZES_Side → s2b.length = LAYOUT_SIZES_Side →
      battleInit s1b s2b start_turn last_damage p1_move_idx p2_move_idx
        rng_seed =
        .ok (battleData s1b s2b start_turn last_damage p1_move_idx
          p2_move_idx rng_seed)) := by
  have heq : battleInit s1b s2b start_turn last_damage p1_move_idx
      p2_move_idx rng_seed =
      if (battleData s1b s2b start_turn last_damage p1_move_idx p2_move_idx
          rng_seed).length * 8 = lib_PKMN_GEN1_BATTLE_SIZE * 8 then
        Except.ok (battleData s1b s2b start_turn last_damage p1_move_idx
          p2_move_idx rng_seed)
      else
        Except.error BattleInitError.SizeMismatch := rfl
  refine ⟨?_, ?_, ?_⟩
  · rw [heq]
    split
    · rename_i h
      exact iff_of_true rfl h
    · rename_i h
      exact iff_of_false (by simp) h
  · rw [heq]
    split
    · rename_i h
      exact iff_of_false (by simp) (by simp [h])
    · rename_i h
      exact iff_of_true rfl h
  · intro h1 h2
    have hs1 : s1b.length = 184 := h1
    have hs2 : s2b.length = 184 := h2
    have hlen : (battleData s1b s2b start_turn last_damage p1_move_idx
        p2_move_idx rng_seed).length = 384 := by
      simp [battleData, pack_u16_as_bytes, pack_move_indexes,
        ShowdownRNG.toBytes, hs1, hs2]
    rw [heq, if_pos (by rw [hlen]; rfl)]

/-- Witness for C1: two zero-filled 184-byte sides construct
successfully. -/
theorem battle_init_spec_witness :
    battleInit (List.replicate 184 0) (List.replicate 184 0) 0 0 0 0 0 =
      .ok (battleData (List.replicate 184 0) (List.replicate 184 0)
        0 0 0 0 0) :=
  (battle_init_spec (List.replicate 184 0) (List.replicate 184 0)
    0 0 0 0 0).2.2 (by rw [List.length_replicate]; rfl)
    (by rw [List.length_replicate]; rfl)

/-- C9: the protocol parser's reference cases: the `Move`, `Turn` and
`Tie` traces decode to the documented lines, and traces with fewer bytes
than the message type requires fail with `TruncatedTrace`. -/
theorem parse_protocol_reference_cases :
    parse_protocol sampleData [MoveMessageId, 1, 94, 9, 0] =
      .ok ["|move|p1a: Pokémon #1|Psychic|p2a: Pokémon #1"] ∧
    parse_protocol sampleData [TurnMessageId, 50, 0] = .ok ["|turn|50"] ∧
    parse_protocol sampleData [TieMessageId] = .ok ["|tie"] ∧
    parse_protocol sampleData [TurnMessageId, 50] =
      .error .TruncatedTrace ∧
    parse_protocol sampleData [MoveMessageId, 1, 94, 9] =
      .error .TruncatedTrace := by
  refine ⟨rfl, rfl, rfl, rfl, rfl⟩

/-- C5: round-trip.  For every valid initializer that explicitly supplies
stats, hp, status, types, level and per-slot move PP, for a valid species
and a valid moveset of 1-4 moves, initialization succeeds and the readers
`stats`, `hp`, `status`, `types`, `level`, `moves` and `pp_left` return
exactly the supplied values, the move and type names recovered unchanged
through the id lookups. -/
theorem pokemon_initialize_roundtrip (d : Gen1Data) (buf : List Nat)
    (species : String) (names : List String) (st : Gen1StatData)
    (hp0 st0 lv : Nat) (t1 t2 : String) (pps : List Nat)
    (hbuf : buf.length = 24)
    (hspec : species = "None" ∨ (List.lookup species d.SPECIES).isSome = true)
    (hN1 : 1 ≤ names.length) (hN4 : names.length ≤ 4)
    (hmoves : ∀ i, i < names.length → ∃ mid,
      List.lookup (names.getD i "") d.MOVE_IDS = some mid ∧ mid ≠ 0 ∧
        List.lookup mid d.MOVE_ID_LOOKUP = some (names.getD i ""))
    (hsthp : st.hp < 65536) (hstatk : st.atk < 65536)
    (hstdef : st.defense < 65536) (hstspe : st.spe < 65536)
    (hstspc : st.spc < 65536) (hhp : hp0 < 65536)
    (ht1 : t1 ∈ d.TYPES) (ht2 : t2 ∈ d.TYPES)
    (hi1 : d.TYPES.indexOf t1 < 16) (hi2 : d.TYPES.indexOf t2 < 16)
    (hpl : pps.length = 4) :
    (pokemonInitialize d buf ⟨species, names,
      overrideExtra hp0 st0 lv st t1 t2 pps⟩).2 = none ∧
    Pokemon.stats (pokemonInitialize d buf ⟨species, names,
      overrideExtra hp0 st0 lv st t1 t2 pps⟩).1 = st ∧
    Pokemon.hp (pokemonInitialize d buf ⟨species, names,
      overrideExtra hp0 st0 lv st t1 t2 pps⟩).1 = hp0 ∧
    Pokemon.status (pokemonInitialize d buf ⟨species, names,
      overrideExtra hp0 st0 lv st t1 t2 pps⟩).1 = st0 ∧
    Pokemon.types d (pokemonInitialize d buf ⟨species, names,
      overrideExtra hp0 st0 lv st t1 t2 pps⟩).1 = (t1, t2) ∧
    Pokemon.level (pokemonInitialize d buf ⟨species, names,
      overrideExtra hp0 st0 lv st t1 t2 pps⟩).1 = lv ∧
    Pokemon.moves d (pokemonInitialize d buf ⟨species, names,
      overrideExtra hp0 st0 lv st t1 t2 pps⟩).1 = names ∧
    Pokemon.pp_left (pokemonInitialize d buf ⟨species, names,
      overrideExtra hp0 st0 lv st t1 t2 pps⟩).1 =
      List.take names.length pps := by
  have hres : resolveStatsTypes d
      ⟨species, names, overrideExtra hp0 st0 lv st t1 t2 pps⟩ lv defaultDVs
      defaultExp = .ok (st, t1, t2) := by
    by_cases hsp : species = "None"
    · simp [resolveStatsTypes, overrideExtra, hsp]
    · rcases hspec with h | h
      · exact absurd h hsp
      · obtain ⟨pr, hpr⟩ := Option.isSome_iff_exists.mp h
        obtain ⟨bs, ts⟩ := pr
        simp [resolveStatsTypes, overrideExtra, hsp, hpr]
  rcases pps with _ | ⟨q0, _ | ⟨q1, _ | ⟨q2, _ | ⟨q3, _ | ⟨q4, qrest⟩⟩⟩⟩⟩ <;>
    simp only [List.length_cons, List.length_nil] at hpl <;> try omega
  rcases names with _ | ⟨a, _ | ⟨b, _ | ⟨c, _ | ⟨e, _ | ⟨f, rest⟩⟩⟩⟩⟩ <;>
    simp only [List.length_cons, List.length_nil] at hN1 hN4 <;> try omega
  · -- one move
    obtain ⟨id1, h1, hne1, hlk1⟩ := hmoves 0 (by simp)
    simp only [List.getD_cons_zero, List.getD_cons_succ] at h1 hlk1
    have hpk : packMoveSlots d [a] (some [q0, q1, q2, q3])
        [0, 1, 2, 3] = ([id1, q0, 0, 0, 0, 0, 0, 0], none) := by
      simp [packMoveSlots, slotPP, h1]
    have hshape := pokemonInitialize_ok_shape d buf
      ⟨species, [a], overrideExtra hp0 st0 lv st t1 t2 [q0, q1, q2, q3]⟩
      st t1 t2 hbuf hres
      (by show (packMoveSlots d [a] (some [q0, q1, q2, q3])
            [0, 1, 2, 3]).2 = none
          rw [hpk])
    simp only [overrideExtra] at hshape
    rw [hpk] at hshape
    simp only [overrideExtra]
    rw [hshape]
    simp only [Option.getD_some]
    have hre := readers_of_record d st hp0 st0 lv
      ((List.lookup species d.SPECIES_IDS).getD 0) id1 q0 0 0 0 0 0 0 t1 t2
      hsthp hstatk hstdef hstspe hstspc hhp ht1 ht2 hi1 hi2
    refine ⟨trivial, hre.1, hre.2.1, hre.2.2.1, hre.2.2.2.1,
      hre.2.2.2.2, ?_, ?_⟩
    · simp [Pokemon.moves, OFFSET_Pokemon_moves, statsBytes,
        pack_u16_as_bytes, byteAt, hne1, hlk1]
    · simp [Pokemon.pp_left, OFFSET_Pokemon_moves, statsBytes,
        pack_u16_as_bytes, byteAt, hne1]
  · -- two moves
    obtain ⟨id1, h1, hne1, hlk1⟩ := hmoves 0 (by simp)
    obtain ⟨id2, h2, hne2, hlk2⟩ := hmoves 1 (by simp)
    simp only [List.getD_cons_zero, List.getD_cons_succ] at h1 h2 hlk1 hlk2
    have hpk : packMoveSlots d [a, b] (some [q0, q1, q2, q3])
        [0, 1, 2, 3] = ([id1, q0, id2, q1, 0, 0, 0, 0], none) := by
      simp [packMoveSlots, slotPP, h1, h2]
    have hshape := pokemonInitialize_ok_shape d buf
      ⟨species, [a, b], overrideExtra hp0 st0 lv st t1 t2 [q0, q1, q2, q3]⟩
      st t1 t2 hbuf hres
      (by show (packMoveSlots d [a, b] (some [q0, q1, q2, q3])
            [0, 1, 2, 3]).2 = none
          rw [hpk])
    simp only [overrideExtra] at hshape
    rw [hpk] at hshape
    simp only [overrideExtra]
    rw [hshape]
    simp only [Option.getD_some]
    have hre := readers_of_record d st hp0 st0 lv
      ((List.lookup species d.SPECIES_IDS).getD 0) id1 q0 id2 q1 0 0 0 0 t1 t2
      hsthp hstatk hstdef hstspe hstspc hhp ht1 ht2 hi1 hi2
    refine ⟨trivial, hre.1, hre.2.1, hre.2.2.1, hre.2.2.2.1,
      hre.2.2.2.2, ?_, ?_⟩
    · simp [Pokemon.moves, OFFSET_Pokemon_moves, statsBytes,
        pack_u16_as_bytes, byteAt, hne1, hne2, hlk1, hlk2]
    · simp [Pokemon.pp_left, OFFSET_Pokemon_moves, statsBytes,
        pack_u16_as_bytes, byteAt, hne1, hne2]
  · -- three moves
    obtain ⟨id1, h1, hne1, hlk1⟩ := hmoves 0 (by simp)
    obtain ⟨id2, h2, hne2, hlk2⟩ := hmoves 1 (by simp)
    obtain ⟨id3, h3, hne3, hlk3⟩ := hmoves 2 (by simp)
    simp only [List.getD_cons_zero, List.getD_cons_succ] at h1 h2 h3 hlk1 hlk2 hlk3
    have hpk : packMoveSlots d [a, b, c] (some [q0, q1, q2, q3])
        [0, 1, 2, 3] = ([id1, q0, id2, q1, id3, q2, 0, 0], none) := by
      simp [packMoveSlots, slotPP, h1, h2, h3]
    have hshape := pokemonInitialize_ok_shape d buf
      ⟨species, [a, b, c], overrideExtra hp0 st0 lv st t1 t2 [q0, q1, q2, q3]⟩
      st t1 t2 hbuf hres
      (by show (packMoveSlots d [a, b, c] (some [q0, q1, q2, q3])
            [0, 1, 2, 3]).2 = none
          rw [hpk])
    simp only [overrideExtra] at hshape
    rw [hpk] at hshape
    simp only [overrideExtra]
    rw [hshape]
    simp only [Option.getD_some]
    have hre := readers_of_record d st hp0 st0 lv
      ((List.lookup species d.SPECIES_IDS).getD 0) id1 q0 id2 q1 id3 q2 0 0 t1 t2
      hsthp hstatk hstdef hstspe hstspc hhp ht1 ht2 hi1 hi2
    refine ⟨trivial, hre.1, hre.2.1, hre.2.2.1, hre.2.2.2.1,
      hre.2.2.2.2, ?_, ?_⟩
    · simp [Pokemon.moves, OFFSET_Pokemon_moves, statsBytes,
        pack_u16_as_bytes, byteAt, hne1, hne2, hne3, hlk1, hlk2, hlk3]
    · simp [Pokemon.pp_left, OFFSET_Pokemon_moves, statsBytes,
        pack_u16_as_bytes, byteAt, hne1, hne2, hne3]
  · -- four moves
    obtain ⟨id1, h1, hne1, hlk1⟩ := hmoves 0 (by simp)
    obtain ⟨id2, h2, hne2, hlk2⟩ := hmoves 1 (by simp)
    obtain ⟨id3, h3, hne3, hlk3⟩ := hmoves 2 (by simp)
    obtain ⟨id4, h4, hne4, hlk4⟩ := hmoves 3 (by simp)
    simp only [List.getD_cons_zero, List.getD_cons_succ] at h1 h2 h3 h4 hlk1 hlk2 hlk3 hlk4
    have hpk : packMoveSlots d [a, b, c, e] (some [q0, q1, q2, q3])
        [0, 1, 2, 3] = ([id1, q0, id2, q1, id3, q2, id4, q3], none) := by
      simp [packMoveSlots, slotPP, h1, h2, h3, h4]
    have hshape := pokemonInitialize_ok_shape d buf
      ⟨species, [a, b, c, e], overrideExtra hp0 st0 lv st t1 t2 [q0, q1, q2, q3]⟩
      st t1 t2 hbuf hres
      (by show (packMoveSlots d [a, b, c, e] (some [q0, q1, q2, q3])
            [0, 1, 2, 3]).2 = none
          rw [hpk])
    simp only [overrideExtra] at hshape
    rw [hpk] at hshape
    simp only [overrideExtra]
    rw [hshape]
    simp only [Option.getD_some]
    have hre := readers_of_record d st hp0 st0 lv
      ((List.lookup species d.SPECIES_IDS).getD 0) id1 q0 id2 q1 id3 q2 id4 q3 t1 t2
      hsthp hstatk hstdef hstspe hstspc hhp ht1 ht2 hi1 hi2
    refine ⟨trivial, hre.1, hre.2.1, hre.2.2.1, hre.2.2.2.1,
      hre.2.2.2.2, ?_, ?_⟩
    · simp [Pokemon.moves, OFFSET_Pokemon_moves, statsBytes,
        pack_u16_as_bytes, byteAt, hne1, hne2, hne3, hne4, hlk1, hlk2, hlk3, hlk4]
    · simp [Pokemon.pp_left, OFFSET_Pokemon_moves, statsBytes,
        pack_u16_as_bytes, byteAt, hne1, hne2, hne3, hne4]

/-- Witness for C5: a fully-overridden record round-trips on the sample
table. -/
theorem pokemon_initialize_roundtrip_witness :
    (pokemonInitialize sampleData (List.replicate 24 0) ⟨"None", ["Psychic"],
      overrideExtra 9 8 77 ⟨11, 12, 13, 14, 15⟩ "Normal" "Fire"
        [31, 0, 0, 0]⟩).2 = none ∧
    Pokemon.moves sampleData (pokemonInitialize sampleData
      (List.replicate 24 0) ⟨"None", ["Psychic"],
      overrideExtra 9 8 77 ⟨11, 12, 13, 14, 15⟩ "Normal" "Fire"
        [31, 0, 0, 0]⟩).1 = ["Psychic"] ∧
    Pokemon.pp_left (pokemonInitialize sampleData
      (List.replicate 24 0) ⟨"None", ["Psychic"],
      overrideExtra 9 8 77 ⟨11, 12, 13, 14, 15⟩ "Normal" "Fire"
        [31, 0, 0, 0]⟩).1 = [31] := by
  have h := pokemon_initialize_roundtrip sampleData (List.replicate 24 0)
    "None" ["Psychic"] ⟨11, 12, 13, 14, 15⟩ 9 8 77 "Normal" "Fire"
    [31, 0, 0, 0] (by decide) (Or.inl rfl) (by decide) (by decide)
    (by
      intro i hi
      simp only [List.length_cons, List.length_nil] at hi
      have hi0 : i = 0 := by omega
      subst hi0
      exact ⟨94, by decide, by decide, by decide⟩)
    (by decide) (by decide) (by decide) (by decide) (by decide) (by decide)
    (by decide) (by decide) (by decide) (by decide) (by decide)
  exact ⟨h.1, h.2.2.2.2.2.2.1, h.2.2.2.2.2.2.2⟩

/-- C7: a Pokémon initialized with a moveset of `N` moves (1-4, each
resolving to a non-zero move id) reports `moves()` and `pp_left()` of
exactly `N` entries in the original moveset order, with trailing unused
slots excluded. -/
theorem pokemon_moves_pp_length (d : Gen1Data) (buf : List Nat)
    (species : String) (names : List String) (extra : ExtraPokemonData)
    (hbuf : buf.length = 24)
    (hspec : species = "None" ∨ (List.lookup species d.SPECIES).isSome = true)
    (hN1 : 1 ≤ names.length) (hN4 : names.length ≤ 4)
    (hmoves : ∀ i, i < names.length → ∃ mid,
      List.lookup (names.getD i "") d.MOVE_IDS = some mid ∧ mid ≠ 0 ∧
        List.lookup mid d.MOVE_ID_LOOKUP = some (names.getD i "")) :
    (pokemonInitialize d buf ⟨species, names, extra⟩).2 = none ∧
    Pokemon.moves d (pokemonInitialize d buf ⟨species, names, extra⟩).1 =
      names ∧
    (Pokemon.pp_left
      (pokemonInitialize d buf ⟨species, names, extra⟩).1).length =
      names.length := by
  obtain ⟨st, t1, t2, hres⟩ := resolveStatsTypes_ok_of_valid d
    ⟨species, names, extra⟩ (extra.level.getD 100)
    (extra.dvs.getD defaultDVs) (extra.exp.getD defaultExp) hspec
  rcases names with _ | ⟨a, _ | ⟨b, _ | ⟨c, _ | ⟨e, _ | ⟨f, rest⟩⟩⟩⟩⟩ <;>
    simp only [List.length_cons, List.length_nil] at hN1 hN4 ⊢ <;> try omega
  · -- one move
    obtain ⟨id1, h1, hne1, hlk1⟩ := hmoves 0 (by simp)
    simp only [List.getD_cons_zero, List.getD_cons_succ] at h1 hlk1
    have hpk : packMoveSlots d [a] extra.move_pp
        [0, 1, 2, 3] = ([id1,
        slotPP d [a] extra.move_pp 0 id1,
        0,
        0,
        0,
        0,
        0,
        0], none) := by
      simp [packMoveSlots, h1]
    have hshape := pokemonInitialize_ok_shape d buf
      ⟨species, [a], extra⟩ st t1 t2 hbuf hres
      (by show (packMoveSlots d [a] extra.move_pp
            [0, 1, 2, 3]).2 = none
          rw [hpk])
    dsimp only at hshape
    rw [hpk] at hshape
    rw [hshape]
    refine ⟨rfl, ?_, ?_⟩
    · simp [Pokemon.moves, OFFSET_Pokemon_moves, statsBytes,
        pack_u16_as_bytes, byteAt, hne1, hlk1]
    · simp [Pokemon.pp_left, OFFSET_Pokemon_moves, statsBytes,
        pack_u16_as_bytes, byteAt, hne1]
  · -- two moves
    obtain ⟨id1, h1, hne1, hlk1⟩ := hmoves 0 (by simp)
    obtain ⟨id2, h2, hne2, hlk2⟩ := hmoves 1 (by simp)
    simp only [List.getD_cons_zero, List.getD_cons_succ] at h1 h2 hlk1 hlk2
    have hpk : packMoveSlots d [a, b] extra.move_pp
        [0, 1, 2, 3] = ([id1,
        slotPP d [a, b] extra.move_pp 0 id1,
        id2,
        slotPP d [a, b] extra.move_pp 1 id2,
        0,
        0,
        0,
        0], none) := by
      simp [packMoveSlots, h1, h2]
    have hshape := pokemonInitialize_ok_shape d buf
      ⟨species, [a, b], extra⟩ st t1 t2 hbuf hres
      (by show (packMoveSlots d [a, b] extra.move_pp
            [0, 1, 2, 3]).2 = none
          rw [hpk])
    dsimp only at hshape
    rw [hpk] at hshape
    rw [hshape]
    refine ⟨rfl, ?_, ?_⟩
    · simp [Pokemon.moves, OFFSET_Pokemon_moves, statsBytes,
        pack_u16_as_bytes, byteAt, hne1, hne2, hlk1, hlk2]
    · simp [Pokemon.pp_left, OFFSET_Pokemon_moves, statsBytes,
        pack_u16_as_bytes, byteAt, hne1, hne2]
  · -- three moves
    obtain ⟨id1, h1, hne1, hlk1⟩ := hmoves 0 (by simp)
    obtain ⟨id2, h2, hne2, hlk2⟩ := hmoves 1 (by simp)
    obtain ⟨id3, h3, hne3, hlk3⟩ := hmoves 2 (by simp)
    simp only [List.getD_cons_zero, List.getD_cons_succ] at h1 h2 h3 hlk1 hlk2 hlk3
    have hpk : packMoveSlots d [a, b, c] extra.move_pp
        [0, 1, 2, 3] = ([id1,
        slotPP d [a, b, c] extra.move_pp 0 id1,
        id2,
        slotPP d [a, b, c] extra.move_pp 1 id2,
        id3,
        slotPP d [a, b, c] extra.move_pp 2 id3,
        0,
        0], none) := by
      simp [packMoveSlots, h1, h2, h3]
    have hshape := pokemonInitialize_ok_shape d buf
      ⟨species, [a, b, c], extra⟩ st t1 t2 hbuf hres
      (by show (packMoveSlots d [a, b, c] extra.move_pp
            [0, 1, 2, 3]).2 = none
          rw [hpk])
    dsimp only at hshape
    rw [hpk] at hshape
    rw [hshape]
    refine ⟨rfl, ?_, ?_⟩
    · simp [Pokemon.moves, OFFSET_Pokemon_moves, statsBytes,
        pack_u16_as_bytes, byteAt, hne1, hne2, hne3, hlk1, hlk2, hlk3]
    · simp [Pokemon.pp_left, OFFSET_Pokemon_moves, statsBytes,
        pack_u16_as_bytes, byteAt, hne1, hne2, hne3]
  · -- four moves
    obtain ⟨id1, h1, hne1, hlk1⟩ := hmoves 0 (by simp)
    obtain ⟨id2, h2, hne2, hlk2⟩ := hmoves 1 (by simp)
    obtain ⟨id3, h3, hne3, hlk3⟩ := hmoves 2 (by simp)
    obtain ⟨id4, h4, hne4, hlk4⟩ := hmoves 3 (by simp)
    simp only [List.getD_cons_zero, List.getD_cons_succ] at h1 h2 h3 h4 hlk1 hlk2 hlk3 hlk4
    have hpk : packMoveSlots d [a, b, c, e] extra.move_pp
        [0, 1, 2, 3] = ([id1,
        slotPP d [a, b, c, e] extra.move_pp 0 id1,
        id2,
        slotPP d [a, b, c, e] extra.move_pp 1 id2,
        id3,
        slotPP d [a, b, c, e] extra.move_pp 2 id3,
        id4,
        slotPP d [a, b, c, e] extra.move_pp 3 id4], none) := by
      simp [packMoveSlots, h1, h2, h3, h4]
    have hshape := pokemonInitialize_ok_shape d buf
      ⟨species, [a, b, c, e], extra⟩ st t1 t2 hbuf hres
      (by show (packMoveSlots d [a, b, c, e] extra.move_pp
            [0, 1, 2, 3]).2 = none
          rw [hpk])
    dsimp only at hshape
    rw [hpk] at hshape
    rw [hshape]
    refine ⟨rfl, ?_, ?_⟩
    · simp [Pokemon.moves, OFFSET_Pokemon_moves, statsBytes,
        pack_u16_as_bytes, byteAt, hne1, hne2, hne3, hne4, hlk1, hlk2, hlk3, hlk4]
    · simp [Pokemon.pp_left, OFFSET_Pokemon_moves, statsBytes,
        pack_u16_as_bytes, byteAt, hne1, hne2, hne3, hne4]

/-- Witness for C7: a two-move Pokémon with default extras reports
two moves and two PP entries. -/
theorem pokemon_moves_pp_length_witness :
    (pokemonInitialize sampleData (List.replicate 24 0)
      ⟨"None", ["Psychic", "Metronome"], {}⟩).2 = none ∧
    Pokemon.moves sampleData (pokemonInitialize sampleData
      (List.replicate 24 0) ⟨"None", ["Psychic", "Metronome"], {}⟩).1 =
      ["Psychic", "Metronome"] ∧
    (Pokemon.pp_left (pokemonInitialize sampleData (List.replicate 24 0)
      ⟨"None", ["Psychic", "Metronome"], {}⟩).1).length =
      ["Psychic", "Metronome"].length :=
  pokemon_moves_pp_length sampleData (List.replicate 24 0) "None"
    ["Psychic", "Metronome"] {} (by decide) (Or.inl rfl) (by decide)
    (by decide)
    (by
      intro i hi
      simp only [List.length_cons, List.length_nil] at hi
      match i, hi with
      | 0, _ => exact ⟨94, by decide, by decide, by decide⟩
      | 1, _ => exact ⟨118, by decide, by decide, by decide⟩)

/-- Counterexample for C3: an `UnknownMove` failure does *not* leave the
buffer unchanged — the stats bytes are packed before the move-name lookup
raises, so a zero buffer initialized with explicit non-zero stats and an
unknown move name ends up mutated when the error surfaces. -/
theorem pokemon_initialize_unknown_move_mutates :
    (pokemonInitialize sampleData (List.replicate 24 0) ⟨"None", ["Bogus"],
      { stats := some ⟨7, 0, 0, 0, 0⟩ }⟩).2 = some .UnknownMove ∧
    (pokemonInitialize sampleData (List.replicate 24 0) ⟨"None", ["Bogus"],
      { stats := some ⟨7, 0, 0, 0, 0⟩ }⟩).1 ≠ List.replicate 24 0 := by
  decide

/-- The moveset's first unknown move name sits at slot `k`. -/
def firstUnknownAt (d : Gen1Data) (names : List String) (k : Nat) : Prop :=
  k < names.length ∧ k < 4 ∧
    List.lookup (names.getD k "") d.MOVE_IDS = none ∧
    ∀ i, i < k → (List.lookup (names.getD i "") d.MOVE_IDS).isSome = true

theorem packMoveSlots_cons_found (d : Gen1Data) (names : List String)
    (mpp : Option (List Nat)) (idx : Nat) (rest : List Nat) (mid : Nat)
    (hidx : idx < names.length)
    (hm : List.lookup (names.getD idx "") d.MOVE_IDS = some mid) :
    packMoveSlots d names mpp (idx :: rest) =
      (mid :: slotPP d names mpp idx mid ::
          (packMoveSlots d names mpp rest).1,
        (packMoveSlots d names mpp rest).2) := by
  rw [packMoveSlots, if_pos hidx, hm]

theorem packMoveSlots_cons_unknown (d : Gen1Data) (names : List String)
    (mpp : Option (List Nat)) (idx : Nat) (rest : List Nat)
    (hidx : idx < names.length)
    (hm : List.lookup (names.getD idx "") d.MOVE_IDS = none) :
    packMoveSlots d names mpp (idx :: rest) = ([], some .UnknownMove) := by
  rw [packMoveSlots, if_pos hidx, hm]

/-- On a first unknown move at slot `k`, the move loop raises
`UnknownMove` having produced exactly the `2 * k` bytes of the earlier
slots. -/
theorem packMoveSlots_firstUnknown (d : Gen1Data) (names : List String)
    (mpp : Option (List Nat)) (k : Nat) (hk : firstUnknownAt d names k) :
    ∃ bs, packMoveSlots d names mpp [0, 1, 2, 3] =
      (bs, some .UnknownMove) ∧ bs.length = 2 * k := by
  obtain ⟨hkn, hk4, hnone, hprev⟩ := hk
  interval_cases k
  · exact ⟨[], by rw [packMoveSlots_cons_unknown d names mpp 0 _ hkn hnone],
      rfl⟩
  · obtain ⟨m0, hm0⟩ := Option.isSome_iff_exists.mp (hprev 0 (by omega))
    refine ⟨[m0, slotPP d names mpp 0 m0], ?_, rfl⟩
    rw [packMoveSlots_cons_found d names mpp 0 _ m0 (by omega) hm0,
      packMoveSlots_cons_unknown d names mpp 1 _ hkn hnone]
  · obtain ⟨m0, hm0⟩ := Option.isSome_iff_exists.mp (hprev 0 (by omega))
    obtain ⟨m1, hm1⟩ := Option.isSome_iff_exists.mp (hprev 1 (by omega))
    refine ⟨[m0, slotPP d names mpp 0 m0, m1, slotPP d names mpp 1 m1],
      ?_, rfl⟩
    rw [packMoveSlots_cons_found d names mpp 0 _ m0 (by omega) hm0,
      packMoveSlots_cons_found d names mpp 1 _ m1 (by omega) hm1,
      packMoveSlots_cons_unknown d names mpp 2 _ hkn hnone]
  · obtain ⟨m0, hm0⟩ := Option.isSome_iff_exists.mp (hprev 0 (by omega))
    obtain ⟨m1, hm1⟩ := Option.isSome_iff_exists.mp (hprev 1 (by omega))
    obtain ⟨m2, hm2⟩ := Option.isSome_iff_exists.mp (hprev 2 (by omega))
    refine ⟨[m0, slotPP d names mpp 0 m0, m1, slotPP d names mpp 1 m1,
      m2, slotPP d names mpp 2 m2], ?_, rfl⟩
    rw [packMoveSlots_cons_found d names mpp 0 _ m0 (by omega) hm0,
      packMoveSlots_cons_found d names mpp 1 _ m1 (by omega) hm1,
      packMoveSlots_cons_found d names mpp 2 _ m2 (by omega) hm2,
      packMoveSlots_cons_unknown d names mpp 3 _ hkn hnone]

/-- C3 (amended): when `Pokemon.initialize` raises `UnknownMove` at move
slot `k`, the buffer from the failing slot's offset (`10 + 2k`) onward is
unchanged and the record size is preserved — but the stats region and the
earlier move slots have already been overwritten by then, so the buffer as
a whole is not in general unchanged. -/
theorem pokemon_initialize_unknown_move_spec (d : Gen1Data) (buf : List Nat)
    (species : String) (names : List String) (extra : ExtraPokemonData)
    (k : Nat) (hbuf : buf.length = 24)
    (hspec : species = "None" ∨ (List.lookup species d.SPECIES).isSome = true)
    (hk : firstUnknownAt d names k) :
    (pokemonInitialize d buf ⟨species, names, extra⟩).2 =
      some .UnknownMove ∧
    (pokemonInitialize d buf ⟨species, names, extra⟩).1.drop (10 + 2 * k) =
      buf.drop (10 + 2 * k) ∧
    (pokemonInitialize d buf ⟨species, names, extra⟩).1.length = 24 := by
  obtain ⟨st, t1, t2, hres⟩ := resolveStatsTypes_ok_of_valid d
    ⟨species, names, extra⟩ (extra.level.getD 100)
    (extra.dvs.getD defaultDVs) (extra.exp.getD defaultExp) hspec
  obtain ⟨bs, hpk, hbl⟩ := packMoveSlots_firstUnknown d names
    extra.move_pp k hk
  have hk4 : k < 4 := hk.2.1
  rw [pokemonInitialize, hres]
  dsimp only
  rw [hpk]
  dsimp only
  refine ⟨rfl, ?_, ?_⟩
  · rw [OFFSET_Pokemon_stats, OFFSET_Pokemon_moves]
    have h0 : writeBytes buf 0 (statsBytes st) =
        statsBytes st ++ buf.drop 10 := by
      rw [writeBytes, statsBytes_length]
      simp
    rw [h0, writeBytes_append (statsBytes_length st), hbl, List.drop_drop]
    have hpre : (statsBytes st ++ bs).length = 10 + 2 * k := by
      rw [List.length_append, statsBytes_length, hbl]
    rw [List.drop_left' hpre]
  · rw [OFFSET_Pokemon_stats, OFFSET_Pokemon_moves]
    refine writeBytes_length24 (writeBytes_length24 hbuf ?_) ?_
    · rw [statsBytes_length]
      omega
    · rw [hbl]
      omega

/-- Witness for the amended C3 at a concrete two-move initializer whose
second move is unknown. -/
theorem pokemon_initialize_unknown_move_spec_witness :
    (pokemonInitialize sampleData (List.replicate 24 0)
      ⟨"None", ["Psychic", "Bogus"], {}⟩).2 = some .UnknownMove ∧
    (pokemonInitialize sampleData (List.replicate 24 0)
      ⟨"None", ["Psychic", "Bogus"], {}⟩).1.drop (10 + 2 * 1) =
      (List.replicate 24 0).drop (10 + 2 * 1) ∧
    (pokemonInitialize sampleData (List.replicate 24 0)
      ⟨"None", ["Psychic", "Bogus"], {}⟩).1.length = 24 :=
  pokemon_initialize_unknown_move_spec sampleData (List.replicate 24 0)
    "None" ["Psychic", "Bogus"] {} 1 (by decide) (Or.inl rfl)
    (by
      refine ⟨by decide, by decide, by decide, ?_⟩
      intro i hi
      have hi0 : i = 0 := by omega
      subst hi0
      decide)

/-- The team loop of `Side.initialize`: starting from slot `i` of a side
buffer whose remaining slots are zero-filled, every slot `i + j` of the
result holds exactly the record a fresh `Pokemon.new` would produce for
`team[j]`, and bytes outside the processed slots are untouched. -/
theorem sideInitTeam_spec (d : Gen1Data) (team : List PokemonInitializer) :
    ∀ (i : Nat) (buf : List Nat), buf.length = 184 →
    24 * i + 24 * team.length ≤ 144 →
    (∀ j, j < team.length →
      readBytes buf (24 * (i + j)) 24 = List.replicate 24 0) →
    (∀ pd ∈ team, (pokemonInitialize d (List.replicate 24 0) pd).2 = none) →
    (sideInitTeam d team i buf).2 = none ∧
    (sideInitTeam d team i buf).1.length = 184 ∧
    (∀ j, (hj : j < team.length) →
      readBytes (sideInitTeam d team i buf).1 (24 * (i + j)) 24 =
        (pokemonInitialize d (List.replicate 24 0) (team.get ⟨j, hj⟩)).1) ∧
    (∀ off len, off + len ≤ 184 →
      (off + len ≤ 24 * i ∨ 24 * (i + team.length) ≤ off) →
      readBytes (sideInitTeam d team i buf).1 off len =
        readBytes buf off len) := by
  induction team with
  | nil =>
    intro i buf hlen _ _ _
    refine ⟨rfl, hlen, ?_, ?_⟩
    · intro j hj
      exact absurd hj (by simp)
    · intro off len _ _
      rfl
  | cons pd rest ih =>
    intro i buf hlen hbound hzero hsucc
    simp only [List.length_cons] at hbound
    have hz0 : readBytes buf (LAYOUT_SIZES_Pokemon * i) LAYOUT_SIZES_Pokemon =
        List.replicate 24 0 := by
      have h := hzero 0 (by simp)
      rw [LAYOUT_SIZES_Pokemon]
      simpa using h
    have hr2 : (pokemonInitialize d (List.replicate 24 0) pd).2 = none :=
      hsucc pd (List.mem_cons_self pd rest)
    have hA : (pokemonInitialize d (List.replicate 24 0) pd).1.length = 24 :=
      pokemonInitialize_length d _ pd (by simp)
    have hstep : sideInitTeam d (pd :: rest) i buf =
        sideInitTeam d rest (i + 1) (writeBytes buf (24 * i)
          (pokemonInitialize d (List.replicate 24 0) pd).1) := by
      rw [sideInitTeam, hz0, hr2]
      rw [LAYOUT_SIZES_Pokemon]
    have hnew : (writeBytes buf (24 * i)
        (pokemonInitialize d (List.replicate 24 0) pd).1).length = 184 := by
      rw [writeBytes_length]
      · exact hlen
      · rw [hA, hlen]
        omega
    have hzero2 : ∀ j, j < rest.length →
        readBytes (writeBytes buf (24 * i)
          (pokemonInitialize d (List.replicate 24 0) pd).1)
          (24 * (i + 1 + j)) 24 = List.replicate 24 0 := by
      intro j hj
      rw [readBytes_writeBytes_disjoint]
      · have e : i + 1 + j = i + (j + 1) := by omega
        rw [e]
        exact hzero (j + 1) (by simp; omega)
      · rw [hA, hlen]
        omega
      · right
        rw [hA]
        omega
    have hsucc2 : ∀ pd2 ∈ rest,
        (pokemonInitialize d (List.replicate 24 0) pd2).2 = none := by
      intro pd2 hm
      exact hsucc pd2 (List.mem_cons_of_mem pd hm)
    have IH := ih (i + 1) (writeBytes buf (24 * i)
      (pokemonInitialize d (List.replicate 24 0) pd).1) hnew
      (by omega) hzero2 hsucc2
    rw [hstep]
    refine ⟨IH.1, IH.2.1, ?_, ?_⟩
    · intro j hj
      match j, hj with
      | 0, _ =>
        have hfr := IH.2.2.2 (24 * (i + 0)) 24 (by omega)
          (by left; omega)
        rw [hfr]
        have e0 : i + 0 = i := by omega
        rw [e0]
        have hread : readBytes (writeBytes buf (24 * i)
            (pokemonInitialize d (List.replicate 24 0) pd).1) (24 * i)
            (pokemonInitialize d (List.replicate 24 0) pd).1.length =
            (pokemonInitialize d (List.replicate 24 0) pd).1 :=
          readBytes_writeBytes_eq (by rw [hlen]; omega)
        rw [hA] at hread
        exact hread
      | j' + 1, hj =>
        have hj' : j' < rest.length := by
          simp at hj
          omega
        have h := IH.2.2.1 j' hj'
        have e : i + 1 + j' = i + (j' + 1) := by omega
        rw [e] at h
        rw [h]
        rfl
    · intro off len h1 h2
      have hfr := IH.2.2.2 off len h1
        (by
          rcases h2 with h | h
          · left
            omega
          · right
            simp only [List.length_cons] at h
            omega)
      rw [hfr]
      rw [readBytes_writeBytes_disjoint]
      · rw [hA, hlen]
        omega
      · rcases h2 with h | h
        · left
          omega
        · right
          rw [hA]
          simp only [List.length_cons] at h
          omega

/-- C2: after `Side.new(team)` (a fresh zero-filled 184-byte side buffer)
with a valid team of at most six Pokémon, each team slot `j` of the side's
own buffer holds, at the slot's schema offset `24 * j`, exactly the packed
record that initializing a fresh Pokémon with `team[j]` produces: the
slots are initialized in place within the parent side buffer. -/
theorem side_initialize_in_place (d : Gen1Data)
    (team : List PokemonInitializer) (hn : team.length ≤ 6)
    (hsucc : ∀ pd ∈ team,
      (pokemonInitialize d (List.replicate 24 0) pd).2 = none) :
    (sideInitialize d (List.replicate 184 0) team).2 = none ∧
    ∀ j, (hj : j < team.length) →
      readBytes (sideInitialize d (List.replicate 184 0) team).1
        (24 * j) 24 =
        (pokemonInitialize d (List.replicate 24 0) (team.get ⟨j, hj⟩)).1 := by
  have hlen : (List.replicate 184 (0 : Nat)).length = 184 := by
    rw [List.length_replicate]
  have hteam := sideInitTeam_spec d team 0 (List.replicate 184 0) hlen
    (by omega)
    (by
      intro j hj
      exact readBytes_replicate (by omega))
    hsucc
  have hstep : sideInitialize d (List.replicate 184 0) team =
      (writeBytes (sideInitTeam d team 0 (List.replicate 184 0)).1
        OFFSET_Side_order ((List.range team.length).map (· + 1)), none) := by
    rw [sideInitialize, hteam.1]
  rw [hstep]
  refine ⟨rfl, ?_⟩
  intro j hj
  have horder : ((List.range team.length).map (· + 1)).length =
      team.length := by
    simp
  rw [OFFSET_Side_order]
  rw [readBytes_writeBytes_disjoint]
  · have h := hteam.2.2.1 j hj
    have e : 0 + j = j := by omega
    rw [e] at h
    exact h
  · rw [horder, hteam.2.1]
    omega
  · left
    omega

/-- Witness for C2 with a single-Pokémon team on the sample table. -/
theorem side_initialize_in_place_witness :
    (sideInitialize sampleData (List.replicate 184 0)
      [⟨"None", ["Psychic"], {}⟩]).2 = none ∧
    readBytes (sideInitialize sampleData (List.replicate 184 0)
      [⟨"None", ["Psychic"], {}⟩]).1 (24 * 0) 24 =
      (pokemonInitialize sampleData (List.replicate 24 0)
        ⟨"None", ["Psychic"], {}⟩).1 := by
  have h := side_initialize_in_place sampleData [⟨"None", ["Psychic"], {}⟩]
    (by decide)
    (by
      intro pd hm
      simp only [List.mem_singleton] at hm
      subst hm
      decide)
  exact ⟨h.1, h.2 0 (by decide)⟩

end PyKMN
